import Mathlib

/-!
Verification of the writing-streak state machine and statistics aggregation
of the Personal-AI-Diary-Journal application (src/app.py).

The streak tracker lives on the User model: four nullable columns
(current_streak, longest_streak, streak_start_date, last_entry_date),
mutated only by User.update_streak and projected by User.get_streak_info.
Dates are modelled as integers counting days; update_streak only ever
reads the calendar date of last_entry_date (time of day discarded) and
stores plain dates back, so day granularity is faithful. The current
date, read from the system clock in the source, is threaded as an
explicit parameter. A Python TypeError escaping the method is modelled
as Except.error.
-/

structure StreakState where
  current_streak : Option Int
  longest_streak : Option Int
  streak_start_date : Option Int
  last_entry_date : Option Int
  deriving Repr, DecidableEq

/-- Embedding of User.update_streak (src/app.py lines 177-205).
The branch for a consecutive day does current_streak += 1 and then
compares current_streak > longest_streak; in Python either step raises
TypeError when the column holds NULL (None), which surfaces here as an
error value. Every successful branch ends by storing today into
last_entry_date, as the source does unconditionally. -/
def update_streak (s : StreakState) (today : Int) : Except String StreakState :=
  match s.last_entry_date with
  | none =>
      Except.ok { s with
        current_streak := some 1
        longest_streak := some 1
        streak_start_date := some today
        last_entry_date := some today }
  | some last =>
      if today = last then
        Except.ok { s with last_entry_date := some today }
      else if today = last + 1 then
        match s.current_streak with
        | none => Except.error "TypeError: unsupported operand types for +=: NoneType and int"
        | some c =>
            match s.longest_streak with
            | none => Except.error "TypeError: > not supported between int and NoneType"
            | some l =>
                let c2 := c + 1
                let l2 := if c2 > l then c2 else l
                let start2 := if c2 = 1 then some today else s.streak_start_date
                Except.ok { s with
                  current_streak := some c2
                  longest_streak := some l2
                  streak_start_date := start2
                  last_entry_date := some today }
      else
        Except.ok { s with
          current_streak := some 1
          streak_start_date := some today
          last_entry_date := some today }

structure StreakInfo where
  current : Int
  longest : Int
  status : String
  message : String
  deriving Repr, DecidableEq

/-- Python "x or 0" on a nullable integer column: None becomes 0, an
integer is kept (the literal 0 that Python returns for a stored 0 is the
same value). -/
def orZero : Option Int → Int
  | none => 0
  | some v => v

/-- Embedding of User.get_streak_info (src/app.py lines 207-242), with
today passed explicitly instead of read from the clock. -/
def get_streak_info (s : StreakState) (today : Int) : StreakInfo :=
  match s.last_entry_date with
  | none =>
      { current := 0
        longest := orZero s.longest_streak
        status := "no_entries"
        message := "Start writing to begin your streak!" }
  | some last =>
      if today = last then
        { current := orZero s.current_streak
          longest := orZero s.longest_streak
          status := "active_today"
          message := "Great! You\x27ve written today. Current streak: " ++
            toString (orZero s.current_streak) ++ " days!" }
      else if today = last + 1 then
        { current := orZero s.current_streak
          longest := orZero s.longest_streak
          status := "can_extend"
          message := "Write today to extend your " ++
            toString (orZero s.current_streak) ++ "-day streak!" }
      else
        { current := 0
          longest := orZero s.longest_streak
          status := "broken"
          message := "Your streak ended " ++ toString (today - last) ++
            " days ago. Start a new streak today!" }

/-- Counters of a freshly registered user: the integer columns default to
0, the date columns to NULL (src/app.py lines 169-172). -/
def registrationState : StreakState :=
  { current_streak := some 0
    longest_streak := some 0
    streak_start_date := none
    last_entry_date := none }

/-- Sequential update_streak calls, one per listed day, stopping at the
first raised error. -/
def run_updates (s : StreakState) : List Int → Except String StreakState
  | [] => Except.ok s
  | d :: rest =>
      match update_streak s d with
      | Except.ok s2 => run_updates s2 rest
      | Except.error e => Except.error e

/-- The list of n consecutive days starting at start. -/
def consecDays (start : Int) : Nat → List Int
  | 0 => []
  | n + 1 => start :: consecDays (start + 1) n

/-!
Statistics aggregation: the stats route (src/app.py lines 777-880)
computes a read-only summary from the user's entries. Only the fields
that feed the aggregation are modelled. A stored timestamp, as the
duck-typed loop sees it, is either a real datetime (timezone-aware or
naive) carrying its clock fields as seconds, or a date-only value whose
tzinfo access and timezone-keyword replace both raise, so that the
recent-entries loop falls through to the bare except. Python dicts keep
insertion order, modelled as association lists.
-/

inductive PyTime where
  | dt (aware : Bool) (v : Int)
  | dateOnly (d : Int)
  deriving Repr, DecidableEq

/-- A diary entry as the aggregation reads it: mood, category_id and
tags are nullable columns; tags holds the JSON list written by
set_tags_list, with none standing for NULL, empty or unparsable JSON
(get_tags_list turns all of those into the empty list); word_count is an
integer column with default 0; timestamp is a nullable DateTime column. -/
structure Entry where
  mood : Option String
  category_id : Option Int
  tags : Option (List String)
  word_count : Int
  timestamp : Option PyTime
  deriving Repr, DecidableEq

/-- Embedding of DiaryEntry.get_tags_list (src/app.py lines 303-310). -/
def get_tags_list (e : Entry) : List String :=
  match e.tags with
  | none => []
  | some l => l

/-- Python truthiness of a nullable string: None and the empty string are
falsy. -/
def truthyStr : Option String → Option String
  | none => none
  | some m => if m = "" then none else some m

/-- Civil date (year, month, day) of a count of days since 1970-01-01,
the standard proleptic-Gregorian conversion underlying Python dates. -/
def civilFromDays (z : Int) : Int × Int × Int :=
  let days := z + 719468
  let era := days.fdiv 146097
  let doe := days - era * 146097
  let yoe := (doe - doe / 1460 + doe / 36524 - doe / 146096) / 1461
  let y := yoe + era * 400
  let doy := doe - (365 * yoe + yoe / 4 - yoe / 100)
  let mp := (5 * doy + 2) / 153
  let d := doy - (153 * mp + 2) / 5 + 1
  let m := mp + (if mp < 10 then 3 else -9)
  (y + (if m ≤ 2 then 1 else 0), m, d)

/-- Two-digit zero padding, as strftime prints months and days. -/
def pad2 (n : Int) : String :=
  if 0 ≤ n ∧ n < 10 then "0" ++ toString n else toString n

/-- Clock fields of a stored timestamp reduced to a day count: a real
datetime contributes the day of its clock fields, a date-only value is
already a day count. Both kinds support strftime. -/
def pyTimeDay : PyTime → Int
  | PyTime.dt _ v => v.fdiv 86400
  | PyTime.dateOnly d => d

/-- strftime with format %Y-%m, the monthly_stats key (src/app.py 792). -/
def monthKey (t : PyTime) : String :=
  let c := civilFromDays (pyTimeDay t)
  toString c.1 ++ "-" ++ pad2 c.2.1

/-- strftime with format %Y-%m-%d, the mood_trends key (src/app.py 831). -/
def dayKey (t : PyTime) : String :=
  let c := civilFromDays (pyTimeDay t)
  toString c.1 ++ "-" ++ pad2 c.2.1 ++ "-" ++ pad2 c.2.2

/-- A defaultdict(int) increment d[k] += 1 on an insertion-ordered dict. -/
def bump (l : List (String × Int)) (k : String) : List (String × Int) :=
  match l with
  | [] => [(k, 1)]
  | (k2, v) :: rest => if k2 = k then (k2, v + 1) :: rest else (k2, v) :: bump rest k

/-- A defaultdict(list) append d[k].append(m) on an insertion-ordered dict. -/
def bumpList (l : List (String × List String)) (k : String) (m : String) :
    List (String × List String) :=
  match l with
  | [] => [(k, [m])]
  | (k2, v) :: rest => if k2 = k then (k2, v ++ [m]) :: rest else (k2, v) :: bumpList rest k m

/-- The monthly_stats loop (src/app.py 790-793): entry.timestamp.strftime
raises AttributeError when the column holds NULL; there is no guard. -/
def monthlyStatsAux (acc : List (String × Int)) :
    List Entry → Except String (List (String × Int))
  | [] => Except.ok acc
  | e :: rest =>
      match e.timestamp with
      | none => Except.error "AttributeError: NoneType object has no attribute strftime"
      | some t => monthlyStatsAux (bump acc (monthKey t)) rest

/-- The mood_stats loop (src/app.py 796-799): entries with a falsy mood
are skipped. -/
def moodStats (entries : List Entry) : List (String × Int) :=
  entries.foldl (fun acc e =>
    match truthyStr e.mood with
    | none => acc
    | some m => bump acc m) []

/-- The per-entry decision of the recent-entries loop (src/app.py
805-826). A NULL timestamp fails the truthiness guard. A naive datetime
is compared against the naive copy of the cutoff, which carries the same
clock fields, hence the same bound; an aware one is compared directly. A
date-only value raises AttributeError at the tzinfo access, then
TypeError at replace in the fallback, and the bare except keeps it. -/
def includeRecent (cutoff : Int) : Option PyTime → Bool
  | none => false
  | some (PyTime.dt false v) => decide (cutoff ≤ v)
  | some (PyTime.dt true v) => decide (cutoff ≤ v)
  | some (PyTime.dateOnly _) => true

/-- The recent_entries filter of the stats route, with the cutoff
(now minus 30 days, in seconds) passed in. -/
def recentEntries (entries : List Entry) (cutoff : Int) : List Entry :=
  entries.filter fun e => includeRecent cutoff e.timestamp

/-- The mood_trends loop (src/app.py 828-832), over recent entries with
truthy mood and timestamp. -/
def moodTrends (recents : List Entry) : List (String × List String) :=
  recents.foldl (fun acc e =>
    match truthyStr e.mood, e.timestamp with
    | some m, some t => bumpList acc (dayKey t) m
    | _, _ => acc) []

/-- max(mood_stats.items(), key=count) (src/app.py 835): Python max keeps
the first maximal item; None when the dict is empty. -/
def mostCommonMood (ms : List (String × Int)) : Option String :=
  match ms with
  | [] => none
  | kv :: rest =>
      some (rest.foldl (fun best x => if x.2 > best.2 then x else best) kv).1

/-- The three positive mood labels of src/app.py lines 846-847, with the
literal characters the source file contains. -/
def positiveMoods : List String :=
  ["ðŸ˜Š Happy", "ðŸŽ‰ Excited",
   "ðŸ˜Œ Peaceful"]

/-- The mood_improvement computation (src/app.py 838-851): only for 10 or
more entries; the list, assumed newest first, is split at
midpoint = len // 2; second_half is the slice before the midpoint,
first_half the slice from it; each half is reduced to its truthy moods
and the positive ones are counted. -/
def moodImprovement (entries : List Entry) : Option Int :=
  if entries.length ≥ 10 then
    let midpoint := entries.length / 2
    let first_half := entries.drop midpoint
    let second_half := entries.take midpoint
    let first_half_moods := first_half.filterMap (fun e => truthyStr e.mood)
    let second_half_moods := second_half.filterMap (fun e => truthyStr e.mood)
    let first_half_positive := (first_half_moods.filter (fun m => m ∈ positiveMoods)).length
    let second_half_positive := (second_half_moods.filter (fun m => m ∈ positiveMoods)).length
    some ((second_half_positive : Int) - (first_half_positive : Int))
  else
    none

/-- The category_stats loop (src/app.py 854-859): a falsy category_id
(NULL, or 0) is skipped, a dangling reference is silently excluded; the
category table is passed as an id-to-name list. -/
def categoryStats (entries : List Entry) (categories : List (Int × String)) :
    List (String × Int) :=
  entries.foldl (fun acc e =>
    match e.category_id with
    | none => acc
    | some cid =>
        if cid = 0 then acc
        else
          match categories.lookup cid with
          | none => acc
          | some name => bump acc name) []

/-- The tag_stats counting loop (src/app.py 862-865). -/
def tagCounts (entries : List Entry) : List (String × Int) :=
  entries.foldl (fun acc e => (get_tags_list e).foldl bump acc) []

/-- sorted(tag_stats.items(), key=count, reverse=True)[:10] (src/app.py
877): a stable descending sort by count, truncated to ten items. -/
def tagStats (entries : List Entry) : List (String × Int) :=
  ((tagCounts entries).mergeSort (fun a b => b.2 ≤ a.2)).take 10

/-- round(x, 1) on an exact rational: round half to even at one decimal
place (Python rounds the nearest binary double the same way on the
values arising here). -/
def round1 (q : Rat) : Rat :=
  let t := 10 * q
  let f := Rat.floor t
  let frac := t - (f : Rat)
  let r : Int :=
    if frac < 1 / 2 then f
    else if 1 / 2 < frac then f + 1
    else if f % 2 = 0 then f else f + 1
  (r : Rat) / 10

structure Stats where
  total_entries : Nat
  total_words : Int
  avg_words : Rat
  monthly_stats : List (String × Int)
  mood_stats : List (String × Int)
  mood_trends : List (String × List String)
  most_common_mood : Option String
  mood_improvement : Option Int
  category_stats : List (String × Int)
  tag_stats : List (String × Int)
  deriving Repr, DecidableEq

/-- Embedding of the statistics computation of the stats route
(src/app.py lines 784-878), with the category table and the current
time (seconds) passed explicitly. The word-count sum runs first, then
the monthly loop, whose AttributeError on a NULL timestamp aborts the
whole computation as the Python exception would. -/
def computeStats (entries : List Entry) (categories : List (Int × String))
    (now : Int) : Except String Stats :=
  let total_entries := entries.length
  let total_words := (entries.map Entry.word_count).sum
  let avg_words : Rat :=
    if total_entries > 0 then (total_words : Rat) / (total_entries : Rat) else 0
  match monthlyStatsAux [] entries with
  | Except.error e => Except.error e
  | Except.ok monthly =>
      let ms := moodStats entries
      let thirty_days_ago := now - 30 * 86400
      let recents := recentEntries entries thirty_days_ago
      Except.ok
        { total_entries := total_entries
          total_words := total_words
          avg_words := round1 avg_words
          monthly_stats := monthly
          mood_stats := ms
          mood_trends := moodTrends recents
          most_common_mood := mostCommonMood ms
          mood_improvement := moodImprovement entries
          category_stats := categoryStats entries categories
          tag_stats := tagStats entries }

/-- The positive-mood test spelled from the spec: the entry's mood label,
empty when the field is absent, belongs to the fixed positive set. Used
to compare the source computation against the spec's description. -/
def specPositiveEntry (e : Entry) : Bool :=
  decide (Option.getD e.mood "" ∈ positiveMoods)

/-- The spec's worked example: twelve entries, the six newest carrying the
positive happy label, the six oldest a mood outside the positive set. -/
def exampleTwelve : List Entry :=
  List.replicate 6
    { mood := some "ðŸ˜Š Happy", category_id := none, tags := none,
      word_count := 0, timestamp := none } ++
  List.replicate 6
    { mood := some "Sad", category_id := none, tags := none,
      word_count := 0, timestamp := none }

/-- Claim C1 read literally: whenever update_streak returns, the stored
longest streak is at least the stored current streak. -/
def claimC1 : Prop :=
  ∀ (s : StreakState) (today : Int) (s' : StreakState),
    update_streak s today = Except.ok s' →
    ∀ c l : Int, s'.current_streak = some c → s'.longest_streak = some l → c ≤ l

/-- Claim C5 read literally: update_streak completes without raising on
every counter state, null columns included. -/
def claimC5 : Prop :=
  ∀ (s : StreakState) (today : Int), ∃ s', update_streak s today = Except.ok s'

/-- Claim C9 read literally: the statistics computation completes without
raising on every entry list, absent optional fields included. -/
def claimC9 : Prop :=
  ∀ (entries : List Entry) (categories : List (Int × String)) (now : Int),
    ∃ st, computeStats entries categories now = Except.ok st

/-- States whose counters witness at least one recorded entry: a current
streak of at least one, and longest and last-entry columns populated. -/
def streakInv (s : StreakState) : Prop :=
  (∃ c, s.current_streak = some c ∧ 1 ≤ c) ∧
  (∃ l, s.longest_streak = some l) ∧
  (∃ d, s.last_entry_date = some d)

theorem orZero_eq_getD (o : Option Int) : orZero o = Option.getD o 0 := by
  cases o <;> rfl

theorem update_streak_ok_last (s : StreakState) (d : Int) (s' : StreakState)
    (h : update_streak s d = Except.ok s') : s'.last_entry_date = some d := by
  unfold update_streak at h
  split at h
  · cases h; rfl
  · split at h
    · cases h; rfl
    · split at h
      · split at h
        · cases h
        · split at h
          · cases h
          · cases h; rfl
      · cases h; rfl

theorem update_streak_consec (s : StreakState) (last c l : Int)
    (hl : s.last_entry_date = some last) (hc : s.current_streak = some c)
    (hlo : s.longest_streak = some l) :
    update_streak s (last + 1) = Except.ok { s with
      current_streak := some (c + 1)
      longest_streak := some (max l (c + 1))
      streak_start_date := if c + 1 = 1 then some (last + 1) else s.streak_start_date
      last_entry_date := some (last + 1) } := by
  have hmax : (if c + 1 > l then c + 1 else l) = max l (c + 1) := by
    by_cases hcl : c + 1 > l
    · simp only [if_pos hcl]
      omega
    · simp only [if_neg hcl]
      omega
  simp only [update_streak, hl, hc, hlo]
  rw [if_neg (by omega : ¬ last + 1 = last)]
  simp only [if_true, hmax]

/-- Claim C1: read literally over all counter states the invariant fails;
a state whose stored longest streak already sits below its current streak
passes through the same-day branch untouched and returns with
longest_streak 0 < current_streak 5. -/
theorem c1_counterexample : ¬ claimC1 := by
  intro h
  have := h
    { current_streak := some 5, longest_streak := some 0,
      streak_start_date := none, last_entry_date := some 0 } 0
    { current_streak := some 5, longest_streak := some 0,
      streak_start_date := none, last_entry_date := some 0 }
    rfl 5 0 rfl rfl
  omega

/-- Claim C1 (amended): after update_streak returns, longest_streak is at
least current_streak, provided the input state was a first-entry state or
already satisfied the invariant with a recorded entry (longest at least
current and at least one); the consecutive-day branch even restores the
invariant unconditionally. -/
theorem c1_invariant (s : StreakState) (today : Int) (s' : StreakState)
    (h : update_streak s today = Except.ok s')
    (hpre : s.last_entry_date = none ∨
      ∃ c l : Int, s.current_streak = some c ∧ s.longest_streak = some l ∧
        c ≤ l ∧ 1 ≤ l) :
    ∃ c' l' : Int, s'.current_streak = some c' ∧ s'.longest_streak = some l' ∧
      c' ≤ l' := by
  cases hl : s.last_entry_date with
  | none =>
      simp only [update_streak, hl] at h
      cases h
      exact ⟨1, 1, rfl, rfl, le_refl 1⟩
  | some last =>
      simp only [update_streak, hl] at h
      rcases hpre with hnone | ⟨c, l, hc, hlo, hcl, hl1⟩
      · rw [hl] at hnone; cases hnone
      · by_cases ht : today = last
        · rw [if_pos ht] at h
          cases h
          exact ⟨c, l, hc, hlo, hcl⟩
        · rw [if_neg ht] at h
          by_cases ht1 : today = last + 1
          · rw [if_pos ht1] at h
            simp only [hc, hlo] at h
            cases h
            refine ⟨c + 1, if c + 1 > l then c + 1 else l, rfl, rfl, ?_⟩
            by_cases hgt : c + 1 > l
            · rw [if_pos hgt]
            · rw [if_neg hgt]; omega
          · rw [if_neg ht1] at h
            cases h
            exact ⟨1, l, rfl, hlo, hl1⟩

/-- Witness for the amended C1 at the registration state recording its
first entry on day 3. -/
theorem c1_invariant_witness :
    ∃ c' l' : Int,
      (StreakState.mk (some 1) (some 1) (some 3) (some 3)).current_streak = some c' ∧
      (StreakState.mk (some 1) (some 1) (some 3) (some 3)).longest_streak = some l' ∧
      c' ≤ l' :=
  c1_invariant registrationState 3
    (StreakState.mk (some 1) (some 1) (some 3) (some 3)) rfl (Or.inl rfl)

/-- Claim C2: a second update_streak call on the calendar day of the last
recorded entry returns the state unchanged, so calling it twice on one
day changes nothing after the first call. -/
theorem c2_same_day_idempotent :
    (∀ (s : StreakState) (last : Int), s.last_entry_date = some last →
      update_streak s last = Except.ok s) ∧
    (∀ (s s' : StreakState) (d : Int), update_streak s d = Except.ok s' →
      update_streak s' d = Except.ok s') := by
  have same : ∀ (s : StreakState) (last : Int), s.last_entry_date = some last →
      update_streak s last = Except.ok s := by
    intro s last hl
    simp only [update_streak, hl, if_true]
    cases s
    simp_all
  refine ⟨same, ?_⟩
  intro s s' d h
  exact same s' d (update_streak_ok_last s d s' h)

/-- Witness for C2: recording twice on day 12. -/
theorem c2_same_day_idempotent_witness :
    update_streak
      { current_streak := some 3, longest_streak := some 4,
        streak_start_date := some 10, last_entry_date := some 12 } 12 =
    Except.ok
      { current_streak := some 3, longest_streak := some 4,
        streak_start_date := some 10, last_entry_date := some 12 } :=
  c2_same_day_idempotent.1
    { current_streak := some 3, longest_streak := some 4,
      streak_start_date := some 10, last_entry_date := some 12 } 12 rfl

/-- Claim C4: with a gap of two or more days, or a clock that moved
backwards, update_streak resets current_streak to 1 and streak_start_date
to today, stores today as last_entry_date, and leaves longest_streak
untouched. -/
theorem c4_gap_resets (s : StreakState) (last today : Int)
    (hl : s.last_entry_date = some last)
    (hgap : today < last ∨ last + 2 ≤ today) :
    update_streak s today = Except.ok { s with
      current_streak := some 1
      streak_start_date := some today
      last_entry_date := some today } := by
  simp only [update_streak, hl]
  rw [if_neg (by omega : ¬ today = last), if_neg (by omega : ¬ today = last + 1)]

/-- Witness for C4: last entry on day 3, next entry on day 9. -/
theorem c4_gap_resets_witness :
    update_streak
      { current_streak := some 4, longest_streak := some 6,
        streak_start_date := some 1, last_entry_date := some 3 } 9 =
    Except.ok
      { current_streak := some 1, longest_streak := some 6,
        streak_start_date := some 9, last_entry_date := some 9 } :=
  c4_gap_resets
    { current_streak := some 4, longest_streak := some 6,
      streak_start_date := some 1, last_entry_date := some 3 } 3 9 rfl
    (Or.inr (by omega))

/-- Claim C5: read literally the operation is not total; on a state whose
longest_streak column holds NULL, the consecutive-day branch compares an
int against None and raises TypeError instead of treating NULL as 0. -/
theorem c5_counterexample : ¬ claimC5 := by
  intro h
  obtain ⟨s', hs'⟩ := h
    { current_streak := some 1, longest_streak := none,
      streak_start_date := none, last_entry_date := some 0 } 1
  simp [update_streak] at hs'

/-- Claim C5 (amended): update_streak completes without raising exactly
when the call does not land in the consecutive-day branch with a NULL
current_streak or longest_streak column; in the first-entry, same-day and
gap branches it completes on every state, NULL columns included. NULL
longest_streak is treated as 0 only by get_streak_info. -/
theorem c5_ok_characterization (s : StreakState) (today : Int) :
    (∃ s', update_streak s today = Except.ok s') ↔
      ¬ (∃ last, s.last_entry_date = some last ∧ today = last + 1 ∧
          (s.current_streak = none ∨ s.longest_streak = none)) := by
  cases hl : s.last_entry_date with
  | none => simp [update_streak, hl]
  | some last =>
      simp only [update_streak, hl, Option.some.injEq]
      by_cases ht : today = last
      · rw [if_pos ht]
        constructor
        · rintro - ⟨last2, rfl, ht2, -⟩
          omega
        · intro _
          exact ⟨_, rfl⟩
      · rw [if_neg ht]
        by_cases ht1 : today = last + 1
        · rw [if_pos ht1]
          cases hc : s.current_streak with
          | none =>
              constructor
              · rintro ⟨s', hs'⟩
                cases hs'
              · intro hcontra
                exact absurd ⟨last, rfl, ht1, Or.inl rfl⟩ hcontra
          | some c =>
              cases hlo : s.longest_streak with
              | none =>
                  constructor
                  · rintro ⟨s', hs'⟩
                    cases hs'
                  · intro hcontra
                    exact absurd ⟨last, rfl, ht1, Or.inr rfl⟩ hcontra
              | some l =>
                  constructor
                  · rintro - ⟨last2, rfl, -, hnull | hnull⟩ <;> cases hnull
                  · intro _
                    exact ⟨_, rfl⟩
        · rw [if_neg ht1]
          constructor
          · rintro - ⟨last2, rfl, ht2, -⟩
            exact ht1 ht2
          · intro _
            exact ⟨_, rfl⟩

theorem run_consec (n : Nat) :
    ∀ (s : StreakState) (last c l : Int),
      s.last_entry_date = some last → s.current_streak = some c →
      s.longest_streak = some l →
      ∃ s', run_updates s (consecDays (last + 1) (n + 1)) = Except.ok s' ∧
        s'.current_streak = some (c + (n + 1 : Nat)) ∧
        s'.longest_streak = some (max l (c + (n + 1 : Nat))) ∧
        s'.last_entry_date = some (last + (n + 1 : Nat)) := by
  induction n with
  | zero =>
      intro s last c l hl hc hlo
      have hstep := update_streak_consec s last c l hl hc hlo
      refine ⟨{ s with
          current_streak := some (c + 1)
          longest_streak := some (max l (c + 1))
          streak_start_date := if c + 1 = 1 then some (last + 1)
            else s.streak_start_date
          last_entry_date := some (last + 1) }, ?_, ?_, ?_, ?_⟩
      · show (match update_streak s (last + 1) with
            | Except.ok s2 => run_updates s2 []
            | Except.error e => Except.error e) = _
        rw [hstep]
        rfl
      · show some (c + 1) = _
        norm_num
      · show some (max l (c + 1)) = _
        norm_num
      · show some (last + 1) = _
        norm_num
  | succ m ih =>
      intro s last c l hl hc hlo
      have hstep := update_streak_consec s last c l hl hc hlo
      obtain ⟨s', hrun, hcur, hlong, hlast⟩ :=
        ih { s with
              current_streak := some (c + 1)
              longest_streak := some (max l (c + 1))
              streak_start_date := if c + 1 = 1 then some (last + 1)
                else s.streak_start_date
              last_entry_date := some (last + 1) }
          (last + 1) (c + 1) (max l (c + 1)) rfl rfl rfl
      refine ⟨s', ?_, ?_, ?_, ?_⟩
      · show (match update_streak s (last + 1) with
            | Except.ok s2 => run_updates s2 (consecDays (last + 1 + 1) (m + 1))
            | Except.error e => Except.error e) = Except.ok s'
        rw [hstep]
        exact hrun
      · rw [hcur]
        congr 1
        push_cast
        ring
      · rw [hlong]
        congr 1
        rw [max_assoc,
          max_eq_right (show (c + 1 : Int) ≤ c + 1 + ((m + 1 : Nat) : Int) by
            push_cast; omega)]
        have harith : c + 1 + ((m + 1 : Nat) : Int) = c + ((m + 1 + 1 : Nat) : Int) := by
          push_cast
          ring
        rw [harith]
      · rw [hlast]
        congr 1
        push_cast
        ring

/-- Claim C3: on the day after the last recorded entry, update_streak
adds one to current_streak and raises longest_streak to the running
maximum; consequently a run of calls on consecutive calendar days adds
one to current_streak per call and tracks the maximum throughout. -/
theorem c3_consecutive_day :
    (∀ (s : StreakState) (last c l : Int),
      s.last_entry_date = some last → s.current_streak = some c →
      s.longest_streak = some l →
      update_streak s (last + 1) = Except.ok { s with
        current_streak := some (c + 1)
        longest_streak := some (max l (c + 1))
        streak_start_date := if c + 1 = 1 then some (last + 1)
          else s.streak_start_date
        last_entry_date := some (last + 1) }) ∧
    (∀ (s : StreakState) (last c l : Int),
      s.last_entry_date = some last → s.current_streak = some c →
      s.longest_streak = some l →
      ∀ n : Nat, 1 ≤ n →
        ∃ s', run_updates s (consecDays (last + 1) n) = Except.ok s' ∧
          s'.current_streak = some (c + n) ∧
          s'.longest_streak = some (max l (c + n)) ∧
          s'.last_entry_date = some (last + n)) := by
  constructor
  · exact update_streak_consec
  · intro s last c l hl hc hlo n hn
    obtain ⟨m, rfl⟩ : ∃ m : Nat, n = m + 1 := ⟨n - 1, by omega⟩
    exact run_consec m s last c l hl hc hlo

/-- Witness for C3: a 2-day streak extended on day 8. -/
theorem c3_consecutive_day_witness :
    update_streak
      { current_streak := some 2, longest_streak := some 5,
        streak_start_date := some 6, last_entry_date := some 7 } (7 + 1) =
    Except.ok
      { current_streak := some 3, longest_streak := some 5,
        streak_start_date := some 6, last_entry_date := some 8 } := by
  have h := c3_consecutive_day.1
    { current_streak := some 2, longest_streak := some 5,
      streak_start_date := some 6, last_entry_date := some 7 } 7 2 5 rfl rfl rfl
  simpa using h

/-- Claim C6: get_streak_info classifies every state: no_entries without a
last entry, active_today on the entry day reporting current_streak,
can_extend the day after reporting current_streak, and otherwise broken
with current reported as 0 and a message carrying the whole number of
days elapsed; in every branch longest defaults to 0 when unset. -/
theorem c6_streak_info (s : StreakState) (today : Int) :
    (s.last_entry_date = none →
      get_streak_info s today =
        { current := 0
          longest := Option.getD s.longest_streak 0
          status := "no_entries"
          message := "Start writing to begin your streak!" }) ∧
    (∀ last, s.last_entry_date = some last → today = last →
      (get_streak_info s today).status = "active_today" ∧
      (get_streak_info s today).current = Option.getD s.current_streak 0 ∧
      (get_streak_info s today).longest = Option.getD s.longest_streak 0) ∧
    (∀ last, s.last_entry_date = some last → today = last + 1 →
      (get_streak_info s today).status = "can_extend" ∧
      (get_streak_info s today).current = Option.getD s.current_streak 0 ∧
      (get_streak_info s today).longest = Option.getD s.longest_streak 0) ∧
    (∀ last, s.last_entry_date = some last → today ≠ last → today ≠ last + 1 →
      (get_streak_info s today).status = "broken" ∧
      (get_streak_info s today).current = 0 ∧
      (get_streak_info s today).longest = Option.getD s.longest_streak 0 ∧
      (get_streak_info s today).message =
        "Your streak ended " ++ toString (today - last) ++
          " days ago. Start a new streak today!") := by
  refine ⟨?_, ?_, ?_, ?_⟩
  · intro hl
    simp [get_streak_info, hl, orZero_eq_getD]
  · intro last hl ht
    simp [get_streak_info, hl, ht, orZero_eq_getD]
  · intro last hl ht
    have hne : ¬ last + 1 = last := by omega
    simp [get_streak_info, hl, ht, hne, orZero_eq_getD]
  · intro last hl ht ht1
    simp [get_streak_info, hl, ht, ht1, orZero_eq_getD]

/-- Witness for C6 at the registration state, which has no last entry. -/
theorem c6_streak_info_witness :
    get_streak_info registrationState 100 =
      { current := 0
        longest := 0
        status := "no_entries"
        message := "Start writing to begin your streak!" } :=
  (c6_streak_info registrationState 100).1 rfl

theorem streakInv_step (s : StreakState) (hinv : streakInv s) (d : Int) :
    ∃ s', update_streak s d = Except.ok s' ∧ streakInv s' := by
  obtain ⟨⟨c, hc, hc1⟩, ⟨l, hlo⟩, ⟨last, hl⟩⟩ := hinv
  by_cases ht : d = last
  · subst ht
    refine ⟨s, ?_, ⟨c, hc, hc1⟩, ⟨l, hlo⟩, ⟨d, hl⟩⟩
    simp only [update_streak, hl, if_true]
    cases s
    simp_all
  · by_cases ht1 : d = last + 1
    · subst ht1
      refine ⟨_, update_streak_consec s last c l hl hc hlo, ?_⟩
      exact ⟨⟨c + 1, rfl, by omega⟩, ⟨max l (c + 1), rfl⟩, ⟨last + 1, rfl⟩⟩
    · refine ⟨{ s with
          current_streak := some 1
          streak_start_date := some d
          last_entry_date := some d }, ?_, ?_⟩
      · simp only [update_streak, hl]
        rw [if_neg ht, if_neg ht1]
      · exact ⟨⟨1, rfl, le_refl 1⟩, ⟨l, hlo⟩, ⟨d, rfl⟩⟩

theorem streakInv_run (days : List Int) :
    ∀ s : StreakState, streakInv s →
      ∃ s', run_updates s days = Except.ok s' ∧ streakInv s' := by
  induction days with
  | nil => exact fun s hinv => ⟨s, rfl, hinv⟩
  | cons d rest ih =>
      intro s hinv
      obtain ⟨s1, hs1, hinv1⟩ := streakInv_step s hinv d
      obtain ⟨s', hs', hinv'⟩ := ih s1 hinv1
      refine ⟨s', ?_, hinv'⟩
      show (match update_streak s d with
          | Except.ok s2 => run_updates s2 rest
          | Except.error e => Except.error e) = Except.ok s'
      rw [hs1]
      exact hs'

theorem status_ne_no_entries (s : StreakState) (d today : Int)
    (hl : s.last_entry_date = some d) :
    (get_streak_info s today).status ≠ "no_entries" := by
  simp only [get_streak_info, hl]
  by_cases ht : today = d
  · rw [if_pos ht]
    show ("active_today" : String) ≠ "no_entries"
    decide
  · rw [if_neg ht]
    by_cases ht1 : today = d + 1
    · rw [if_pos ht1]
      show ("can_extend" : String) ≠ "no_entries"
      decide
    · rw [if_neg ht1]
      show ("broken" : String) ≠ "no_entries"
      decide

/-- Claim C10: from the registration state, any non-empty run of
update_streak calls, on arbitrary dates, succeeds and leaves a current
streak of at least one and a populated last_entry_date, so
get_streak_info can never again report no_entries for that user. -/
theorem c10_no_entries_unreachable (days : List Int) (hne : days ≠ []) :
    ∃ s', run_updates registrationState days = Except.ok s' ∧
      (∃ c, s'.current_streak = some c ∧ 1 ≤ c) ∧
      (∃ d, s'.last_entry_date = some d) ∧
      ∀ today, (get_streak_info s' today).status ≠ "no_entries" := by
  cases days with
  | nil => exact absurd rfl hne
  | cons d rest =>
      have hfirst : update_streak registrationState d = Except.ok
          { current_streak := some 1, longest_streak := some 1,
            streak_start_date := some d, last_entry_date := some d } := rfl
      have hinv1 : streakInv
          { current_streak := some 1, longest_streak := some 1,
            streak_start_date := some d, last_entry_date := some d } :=
        ⟨⟨1, rfl, le_refl 1⟩, ⟨1, rfl⟩, ⟨d, rfl⟩⟩
      obtain ⟨s', hs', hcur, -, hlast⟩ := streakInv_run rest _ hinv1
      obtain ⟨dd, hdd⟩ := hlast
      refine ⟨s', ?_, hcur, ⟨dd, hdd⟩, fun today => status_ne_no_entries s' dd today hdd⟩
      show (match update_streak registrationState d with
          | Except.ok s2 => run_updates s2 rest
          | Except.error e => Except.error e) = Except.ok s'
      rw [hfirst]
      exact hs'

/-- Witness for C10: a single entry recorded on day 5. -/
theorem c10_no_entries_unreachable_witness :
    ∃ s', run_updates registrationState [5] = Except.ok s' ∧
      (∃ c, s'.current_streak = some c ∧ 1 ≤ c) ∧
      (∃ d, s'.last_entry_date = some d) ∧
      ∀ today, (get_streak_info s' today).status ≠ "no_entries" :=
  c10_no_entries_unreachable [5] (by simp)

theorem positive_count_eq (l : List Entry) :
    ((l.filterMap (fun e => truthyStr e.mood)).filter
        (fun m => m ∈ positiveMoods)).length =
      (l.filter specPositiveEntry).length := by
  induction l with
  | nil => rfl
  | cons e rest ih =>
      cases hm : e.mood with
      | none =>
          have htr : truthyStr e.mood = none := by rw [hm]; rfl
          have hspec : specPositiveEntry e = false := by
            simp [specPositiveEntry, hm]
            decide
          simp [List.filterMap_cons, List.filter_cons, htr, hspec, ih]
      | some m =>
          by_cases hme : m = ""
          · subst hme
            have htr : truthyStr e.mood = none := by rw [hm]; rfl
            have hspec : specPositiveEntry e = false := by
              simp [specPositiveEntry, hm]
              decide
            simp [List.filterMap_cons, List.filter_cons, htr, hspec, ih]
          · have htr : truthyStr e.mood = some m := by
              rw [hm]
              simp [truthyStr, hme]
            have hspec : specPositiveEntry e = decide (m ∈ positiveMoods) := by
              simp [specPositiveEntry, hm]
            by_cases hp : m ∈ positiveMoods
            · simp [List.filterMap_cons, List.filter_cons, htr, hspec, hp, ih]
            · simp [List.filterMap_cons, List.filter_cons, htr, hspec, hp, ih]

/-- Claim C7: for ten or more entries, mood_improvement is the count of
positive-mood entries in the newest-first slice before the midpoint minus
the count in the slice from the midpoint on; for fewer than ten entries
it is null; and the spec's twelve-entry example yields 6. -/
theorem c7_mood_improvement :
    (∀ entries : List Entry, entries.length ≥ 10 →
      moodImprovement entries = some
        ((((entries.take (entries.length / 2)).filter specPositiveEntry).length : Int) -
          (((entries.drop (entries.length / 2)).filter specPositiveEntry).length : Int))) ∧
    (∀ entries : List Entry, entries.length < 10 →
      moodImprovement entries = none) ∧
    moodImprovement exampleTwelve = some 6 := by
  refine ⟨?_, ?_, ?_⟩
  · intro entries hlen
    simp only [moodImprovement, if_pos hlen]
    rw [positive_count_eq, positive_count_eq]
  · intro entries hlen
    simp only [moodImprovement]
    rw [if_neg (by omega)]
  · decide

/-- Witness for C7: the empty list is below the ten-entry threshold. -/
theorem c7_mood_improvement_witness : moodImprovement [] = none :=
  c7_mood_improvement.2.1 [] (by decide)

/-- Claim C8: the recent-entries selection keeps exactly the entries whose
datetime clock value is at least now minus 30 days (inclusive lower
bound), naive datetimes being held to the naive copy of that cutoff,
together with the entries whose timestamp comparison fails (date-only
values), which the bare except includes; entries with a NULL timestamp
are dropped by the truthiness guard. -/
theorem c8_recent_entries (entries : List Entry) (now : Int) (e : Entry) :
    e ∈ recentEntries entries (now - 30 * 86400) ↔
      e ∈ entries ∧
        ((∃ aware v, e.timestamp = some (PyTime.dt aware v) ∧
            now - 30 * 86400 ≤ v) ∨
          (∃ d, e.timestamp = some (PyTime.dateOnly d))) := by
  rw [recentEntries, List.mem_filter]
  constructor
  · rintro ⟨hmem, hinc⟩
    refine ⟨hmem, ?_⟩
    cases ht : e.timestamp with
    | none => rw [ht] at hinc; cases hinc
    | some t =>
        cases t with
        | dt aware v =>
            rw [ht] at hinc
            left
            refine ⟨aware, v, rfl, ?_⟩
            cases aware with
            | false => exact of_decide_eq_true hinc
            | true => exact of_decide_eq_true hinc
        | dateOnly d => exact Or.inr ⟨d, rfl⟩
  · rintro ⟨hmem, hdt | hdate⟩
    · obtain ⟨aware, v, ht, hv⟩ := hdt
      refine ⟨hmem, ?_⟩
      rw [ht]
      cases aware with
      | false => exact decide_eq_true hv
      | true => exact decide_eq_true hv
    · obtain ⟨d, ht⟩ := hdate
      refine ⟨hmem, ?_⟩
      rw [ht]
      rfl

theorem monthlyStatsAux_ok (entries : List Entry) :
    ∀ acc : List (String × Int), (∀ e ∈ entries, e.timestamp ≠ none) →
      ∃ m, monthlyStatsAux acc entries = Except.ok m := by
  induction entries with
  | nil => exact fun acc _ => ⟨acc, rfl⟩
  | cons e rest ih =>
      intro acc hall
      cases ht : e.timestamp with
      | none => exact absurd ht (hall e (List.mem_cons_self e rest))
      | some t =>
          obtain ⟨m, hm⟩ := ih (bump acc (monthKey t))
            (fun x hx => hall x (List.mem_cons_of_mem e hx))
          refine ⟨m, ?_⟩
          show (match e.timestamp with
              | none =>
                  (Except.error
                    "AttributeError: NoneType object has no attribute strftime" :
                    Except String (List (String × Int)))
              | some t => monthlyStatsAux (bump acc (monthKey t)) rest) = Except.ok m
          rw [ht]
          exact hm

/-- Claim C9: read literally the aggregation is not exception-free; a
single entry whose timestamp column is NULL passes the guarded
recent-entries and mood-trend loops but the unguarded monthly_stats loop
calls strftime on None and raises AttributeError. -/
theorem c9_counterexample : ¬ claimC9 := by
  intro h
  obtain ⟨st, hst⟩ := h
    [{ mood := none, category_id := none, tags := none,
       word_count := 0, timestamp := none }] [] 0
  rw [show computeStats
      [{ mood := none, category_id := none, tags := none,
         word_count := 0, timestamp := none }] [] 0 =
      Except.error "AttributeError: NoneType object has no attribute strftime"
    from rfl] at hst
  cases hst

/-- Claim C9 (amended): the aggregation completes without raising on
every entry list whose timestamps are all non-NULL (absent mood, category
and tags are handled by the guarded loops), and on the empty list every
field degrades to empty, zero or null. -/
theorem c9_safety :
    (∀ (entries : List Entry) (categories : List (Int × String)) (now : Int),
      (∀ e ∈ entries, e.timestamp ≠ none) →
      ∃ st, computeStats entries categories now = Except.ok st) ∧
    (∀ (categories : List (Int × String)) (now : Int),
      computeStats [] categories now = Except.ok
        { total_entries := 0
          total_words := 0
          avg_words := 0
          monthly_stats := []
          mood_stats := []
          mood_trends := []
          most_common_mood := none
          mood_improvement := none
          category_stats := []
          tag_stats := [] }) := by
  constructor
  · intro entries categories now hall
    obtain ⟨m, hm⟩ := monthlyStatsAux_ok entries [] hall
    unfold computeStats
    rw [hm]
    exact ⟨_, rfl⟩
  · intro categories now
    have h1 : tagStats ([] : List Entry) = [] := by
      simp [tagStats, tagCounts]
    have h2 : round1 0 = 0 := by
      unfold round1
      norm_num
      rw [show Rat.floor (0 : Rat) = 0 from rfl]
      norm_num
    simp [computeStats, monthlyStatsAux, moodStats, recentEntries, moodTrends,
      mostCommonMood, moodImprovement, categoryStats, h1, h2]

/-- Witness for C9: one mood-only entry stamped at the epoch, no optional
fields set. -/
theorem c9_safety_witness :
    ∃ st, computeStats
      [{ mood := none, category_id := none, tags := none,
         word_count := 3, timestamp := some (PyTime.dateOnly 0) }] [] 0 =
      Except.ok st :=
  c9_safety.1
    [{ mood := none, category_id := none, tags := none,
       word_count := 3, timestamp := some (PyTime.dateOnly 0) }] [] 0
    (by simp)
